import Mathlib

/-!
Shallow embedding of the EziPay backend relay (`src/server.js`): the
withdrawal approval workflow (create / approve / reject / stats), the
payment-create flow, and the access-token cache.  All gateway and store
effects are passed in as explicit oracles (`Except`/`Option` results), and
each operation returns its HTTP response, the resulting store contents, and
the list of gateway calls it made.  Statuses are the literal strings the
JavaScript writes; timestamps are `Nat` milliseconds, with `serverTimestamp`
modelled as the operation's single `now` parameter and `toISOString`
abstracted to an injective rendering function.
-/

deriving instance DecidableEq for Except

namespace EziPay

/-- JavaScript truthiness for an optional string field of a request body:
`undefined`/`null` and the empty string are falsy. -/
def truthyS : Option String → Bool
  | none => false
  | some s => s ≠ ""

/-- JavaScript truthiness for an optional numeric field: `undefined`/`null`
and `0` are falsy; every other integer (negatives included) is truthy. -/
def truthyI : Option Int → Bool
  | none => false
  | some n => n ≠ 0

/-- JavaScript `x || d` for an optional string `x`: the default is taken when
`x` is absent or empty. -/
def jsOrS (x : Option String) (d : String) : String :=
  match x with
  | none => d
  | some s => if s = "" then d else s

/-- JavaScript `x || null` for an optional string: the empty string collapses
to `null`. -/
def jsOrNullS (x : Option String) : Option String :=
  match x with
  | none => none
  | some s => if s = "" then none else some s

/-- The `response` part of an axios error: `error.response.data` (the upstream
body, rendered opaquely) and `error.response.data.message` when the body has a
`message` field. -/
structure AxiosErrResp where
  data : String
  dataMessage : Option String
  deriving DecidableEq, Repr

/-- A JavaScript exception as the handlers read it: `error.message` plus the
optional axios `error.response`. -/
structure JsError where
  message : String
  response : Option AxiosErrResp
  deriving DecidableEq, Repr

/-- `error.response?.data || error.message` — the `details` field of 500
responses (an upstream body object is always truthy). -/
def errDetails (e : JsError) : String :=
  match e.response with
  | some r => r.data
  | none => e.message

/-- `error.response?.data?.message || error.message` — what the approve catch
block records as `error_message` (an empty `message` string is falsy). -/
def errMsgField (e : JsError) : String :=
  match e.response with
  | some r =>
    match r.dataMessage with
    | some m => if m = "" then e.message else m
    | none => e.message
  | none => e.message

/-- A withdrawal document as stored in the `withdrawals` collection.
`status` is the literal string the code writes; fields the code never sets on
a document are `none` (absent). -/
structure Withdrawal where
  email_or_phone : String
  currency : String
  amount : Int
  payment_method_id : Int
  moncash_account_number : Option String
  userId : Option String
  userEmail : Option String
  receiver_info : String
  status : String
  created_at : Nat
  processed_at : Option Nat
  processed_by : Option String
  ezipay_response : Option String
  error_message : Option String
  rejection_reason : Option String
  deriving DecidableEq, Repr

/-- The `withdrawals` collection: document id paired with its data. -/
abbrev Store := List (String × Withdrawal)

/-- `db.collection('withdrawals').doc(id).get()` — first document with the
given id. -/
def storeGet (s : Store) (id : String) : Option Withdrawal :=
  match s with
  | [] => none
  | (k, w) :: t => if k = id then some w else storeGet t id

/-- Firestore `update`: merge fields into every document with the given id
(ids are unique in practice); on a missing id nothing changes. -/
def storeUpdate (s : Store) (id : String) (f : Withdrawal → Withdrawal) : Store :=
  match s with
  | [] => []
  | p :: t =>
    if p.1 = id then (p.1, f p.2) :: storeUpdate t id f
    else p :: storeUpdate t id f

/-- Abstraction of `timestamp.toDate().toISOString()`: an injective rendering
of the millisecond timestamp (the concrete ISO-8601 formatting is opaque to
every property here). -/
def isoOf (t : Nat) : String := toString t

/-- A withdrawal as the admin endpoints return it: `{id, ...doc.data()}` with
both timestamps rendered (`processed_at` stays absent while null). -/
structure RenderedWithdrawal where
  id : String
  email_or_phone : String
  currency : String
  amount : Int
  payment_method_id : Int
  moncash_account_number : Option String
  userId : Option String
  userEmail : Option String
  receiver_info : String
  status : String
  created_at : String
  processed_at : Option String
  processed_by : Option String
  ezipay_response : Option String
  error_message : Option String
  rejection_reason : Option String
  deriving DecidableEq, Repr

def renderWithdrawal (id : String) (w : Withdrawal) : RenderedWithdrawal :=
  { id := id
    email_or_phone := w.email_or_phone
    currency := w.currency
    amount := w.amount
    payment_method_id := w.payment_method_id
    moncash_account_number := w.moncash_account_number
    userId := w.userId
    userEmail := w.userEmail
    receiver_info := w.receiver_info
    status := w.status
    created_at := isoOf w.created_at
    processed_at := w.processed_at.map isoOf
    processed_by := w.processed_by
    ezipay_response := w.ezipay_response
    error_message := w.error_message
    rejection_reason := w.rejection_reason }

/-- An HTTP JSON response: 200 with a success payload, or an error status
with `{error, details?}`. -/
inductive ApiResp (α : Type) where
  | ok (data : α)
  | err (code : Nat) (error : String) (details : Option String)
  deriving DecidableEq, Repr

/-- The payload of `POST /send-money/create`, built from the stored
withdrawal; `moncash_account_number` is attached only when truthy. -/
structure SendMoneyReq where
  email_or_phone : String
  currency : String
  amount : Int
  payment_method_id : Int
  moncash_account_number : Option String
  deriving DecidableEq, Repr

def buildSendMoneyReq (w : Withdrawal) : SendMoneyReq :=
  { email_or_phone := w.email_or_phone
    currency := w.currency
    amount := w.amount
    payment_method_id := w.payment_method_id
    moncash_account_number := jsOrNullS w.moncash_account_number }

/-- Outbound gateway operations an endpoint can perform (token acquisition is
modelled separately by `getAccessToken`). -/
inductive GwCall where
  | verifyReceiver (email_or_phone : String)
  | sendMoney (req : SendMoneyReq)
  | createTransaction (amount : Int) (currency : String)
  deriving DecidableEq, Repr

/-- Outcome of one endpoint invocation: the HTTP response, the resulting
`withdrawals` collection, and the gateway calls made. -/
structure OpResult (α : Type) where
  resp : ApiResp α
  withdrawals : Store
  calls : List GwCall
  deriving DecidableEq, Repr

/-! ### Withdrawal creation — `POST /api/withdrawal/request` -/

/-- The request body of `POST /api/withdrawal/request`; absent fields are
`none`. -/
structure WithdrawalCreateBody where
  email_or_phone : Option String
  currency : Option String
  amount : Option Int
  payment_method_id : Option Int
  moncash_account_number : Option String
  userId : Option String
  userEmail : Option String
  deriving DecidableEq, Repr

/-- `!email_or_phone || !currency || !amount || !payment_method_id`, negated:
all four mandatory fields are truthy. -/
def validFields (b : WithdrawalCreateBody) : Bool :=
  truthyS b.email_or_phone && truthyS b.currency &&
    truthyI b.amount && truthyI b.payment_method_id

/-- Body of the gateway's verify-receiver response: its `status` field and the
`data` payload snapshot. -/
structure VerifyResp where
  status : String
  data : String
  deriving DecidableEq, Repr

/-- Effect oracles for one create call: the token acquisition, the
verify-receiver axios call, and the Firestore `add` (returning the fresh
document id). -/
structure CreateOracles where
  token : Except JsError String
  verify : Except JsError VerifyResp
  add : Except JsError String
  deriving DecidableEq, Repr

/-- Success payload of a create call: `{withdrawal_id, status}`. -/
structure WithdrawalCreateOk where
  withdrawal_id : String
  status : String
  deriving DecidableEq, Repr

/-- The document a successful create persists. -/
def newWithdrawal (b : WithdrawalCreateBody) (snapshot : String) (now : Nat) :
    Withdrawal :=
  { email_or_phone := b.email_or_phone.getD ""
    currency := b.currency.getD ""
    amount := b.amount.getD 0
    payment_method_id := b.payment_method_id.getD 0
    moncash_account_number := jsOrNullS b.moncash_account_number
    userId := jsOrNullS b.userId
    userEmail := jsOrNullS b.userEmail
    receiver_info := snapshot
    status := "pending"
    created_at := now
    processed_at := none
    processed_by := none
    ezipay_response := none
    error_message := none
    rejection_reason := none }

/-- `POST /api/withdrawal/request`: validate the four mandatory fields, verify
the receiver through the gateway, and persist a `pending` document with the
verification snapshot.  Any thrown error lands in the catch and yields the
500 response with `details`. -/
def createWithdrawal (s : Store) (b : WithdrawalCreateBody)
    (o : CreateOracles) (now : Nat) : OpResult WithdrawalCreateOk :=
  if validFields b then
    match o.token with
    | .error e => ⟨.err 500 "Failed to create withdrawal request" (some (errDetails e)), s, []⟩
    | .ok _ =>
      match o.verify with
      | .error e =>
        ⟨.err 500 "Failed to create withdrawal request" (some (errDetails e)), s,
          [.verifyReceiver (b.email_or_phone.getD "")]⟩
      | .ok vr =>
        if vr.status ≠ "success" then
          ⟨.err 400 "Invalid receiver" none, s,
            [.verifyReceiver (b.email_or_phone.getD "")]⟩
        else
          match o.add with
          | .error e =>
            ⟨.err 500 "Failed to create withdrawal request" (some (errDetails e)), s,
              [.verifyReceiver (b.email_or_phone.getD "")]⟩
          | .ok wid =>
            ⟨.ok ⟨wid, "pending"⟩, s ++ [(wid, newWithdrawal b vr.data now)],
              [.verifyReceiver (b.email_or_phone.getD "")]⟩
  else
    ⟨.err 400 "Missing required fields" none, s, []⟩

/-! ### Approval — `POST /api/admin/withdrawal/approve/:id` -/

/-- Effect oracles for one approve call: the initial `withdrawalRef.get()`
(`none` = it returns), token acquisition, the send-money axios call (`.ok`
carries `response.data` rendered), and the three later Firestore writes/reads
that may throw (`none` = success). -/
structure ApproveOracles where
  getDoc : Option JsError
  token : Except JsError String
  send : Except JsError String
  updApproved : Option JsError
  reread : Option JsError
  updFailed : Option JsError
  deriving DecidableEq, Repr

/-- The field merge of the approved update. -/
def approvedUpdate (adminId : Option String) (now : Nat) (resp : String)
    (w : Withdrawal) : Withdrawal :=
  { w with status := "approved", processed_at := some now
           processed_by := some (jsOrS adminId "admin")
           ezipay_response := some resp }

/-- The field merge of the compensating `failed` update in the catch block:
note that it writes `status`, `processed_at` and `error_message` only. -/
def failedUpdate (now : Nat) (e : JsError) (w : Withdrawal) : Withdrawal :=
  { w with status := "failed", processed_at := some now
           error_message := some (errMsgField e) }

/-- The approve catch block: best-effort `failed` write (its own failure is
logged and swallowed), then the 500 response carrying the original cause. -/
def approveCatch (s : Store) (id : String) (e : JsError)
    (updFailed : Option JsError) (now : Nat) (calls : List GwCall) :
    OpResult RenderedWithdrawal :=
  ⟨.err 500 "Failed to process withdrawal" (some (errDetails e)),
    (match updFailed with
     | none => storeUpdate s id (failedUpdate now e)
     | some _ => s),
    calls⟩

/-- `POST /api/admin/withdrawal/approve/:id`.  A throwing initial
`withdrawalRef.get()` lands in the catch block like any other exception in
the `try`; `serverTimestamp` is the call's `now`. -/
def approveWithdrawal (s : Store) (id : String) (adminId : Option String)
    (o : ApproveOracles) (now : Nat) : OpResult RenderedWithdrawal :=
  match o.getDoc with
  | some e => approveCatch s id e o.updFailed now []
  | none =>
  match storeGet s id with
  | none => ⟨.err 404 "Withdrawal not found" none, s, []⟩
  | some w =>
    if w.status ≠ "pending" then
      ⟨.err 400 "Withdrawal already processed" none, s, []⟩
    else
      match o.token with
      | .error e => approveCatch s id e o.updFailed now []
      | .ok _ =>
        match o.send with
        | .error e => approveCatch s id e o.updFailed now [.sendMoney (buildSendMoneyReq w)]
        | .ok respData =>
          match o.updApproved with
          | some e => approveCatch s id e o.updFailed now [.sendMoney (buildSendMoneyReq w)]
          | none =>
            match o.reread with
            | some e =>
              approveCatch (storeUpdate s id (approvedUpdate adminId now respData))
                id e o.updFailed now [.sendMoney (buildSendMoneyReq w)]
            | none =>
              match storeGet (storeUpdate s id (approvedUpdate adminId now respData)) id with
              | some w1 =>
                ⟨.ok (renderWithdrawal id w1),
                  storeUpdate s id (approvedUpdate adminId now respData),
                  [.sendMoney (buildSendMoneyReq w)]⟩
              | none =>
                ⟨.err 500 "Failed to process withdrawal" none,
                  storeUpdate s id (approvedUpdate adminId now respData),
                  [.sendMoney (buildSendMoneyReq w)]⟩

/-! ### Rejection — `POST /api/admin/withdrawal/reject/:id` -/

/-- Effect oracles for one reject call: the initial `withdrawalRef.get()`,
the Firestore update and the re-read (`none` = success).  The reject route
makes no gateway call at all. -/
structure RejectOracles where
  getDoc : Option JsError
  upd : Option JsError
  reread : Option JsError
  deriving DecidableEq, Repr

/-- The field merge of the rejected update. -/
def rejectedUpdate (reason adminId : Option String) (now : Nat)
    (w : Withdrawal) : Withdrawal :=
  { w with status := "rejected", processed_at := some now
           processed_by := some (jsOrS adminId "admin")
           rejection_reason := some (jsOrS reason "No reason provided") }

/-- `POST /api/admin/withdrawal/reject/:id`.  Its catch block — reached by a
throwing initial read as well — returns a bare 500 with no `details` and
performs no compensating write. -/
def rejectWithdrawal (s : Store) (id : String) (reason adminId : Option String)
    (o : RejectOracles) (now : Nat) : OpResult RenderedWithdrawal :=
  match o.getDoc with
  | some _ => ⟨.err 500 "Failed to reject withdrawal" none, s, []⟩
  | none =>
  match storeGet s id with
  | none => ⟨.err 404 "Withdrawal not found" none, s, []⟩
  | some w =>
    if w.status ≠ "pending" then
      ⟨.err 400 "Withdrawal already processed" none, s, []⟩
    else
      match o.upd with
      | some _ => ⟨.err 500 "Failed to reject withdrawal" none, s, []⟩
      | none =>
        match o.reread with
        | some _ =>
          ⟨.err 500 "Failed to reject withdrawal" none,
            storeUpdate s id (rejectedUpdate reason adminId now), []⟩
        | none =>
          match storeGet (storeUpdate s id (rejectedUpdate reason adminId now)) id with
          | some w1 =>
            ⟨.ok (renderWithdrawal id w1),
              storeUpdate s id (rejectedUpdate reason adminId now), []⟩
          | none =>
            ⟨.err 500 "Failed to reject withdrawal" none,
              storeUpdate s id (rejectedUpdate reason adminId now), []⟩

/-! ### Stats — `GET /api/admin/stats` -/

structure StatsData where
  total : Nat
  pending : Nat
  approved : Nat
  rejected : Nat
  failed : Nat
  deriving DecidableEq, Repr

/-- `GET /api/admin/stats`: total is the whole collection; pending, approved
and rejected come from `where('status','==',...)` queries; failed filters the
total snapshot's docs by status. -/
def statsOf (s : Store) : StatsData :=
  { total := s.length
    pending := (s.filter (fun p => p.2.status == "pending")).length
    approved := (s.filter (fun p => p.2.status == "approved")).length
    rejected := (s.filter (fun p => p.2.status == "rejected")).length
    failed := (s.filter (fun p => p.2.status == "failed")).length }

/-! ### Access-token cache — `getAccessToken` -/

/-- The module-level token cache: `accessToken` and `tokenExpiry` (both start
as `null`). -/
structure TokenCache where
  accessToken : Option String
  tokenExpiry : Option Int
  deriving DecidableEq, Repr

/-- Body of the token endpoint's response: `status` and
`data.access_token`. -/
structure TokenRespBody where
  status : String
  access_token : String
  deriving DecidableEq, Repr

/-- `accessToken && tokenExpiry && Date.now() < tokenExpiry`: both cache cells
truthy and the current time strictly before the recorded expiry. -/
def cacheValid (c : TokenCache) (now : Int) : Bool :=
  truthyS c.accessToken &&
    (match c.tokenExpiry with
     | some e => e ≠ 0 && now < e
     | none => false)

/-- Outcome of one `getAccessToken` call: the returned token or propagated
error, the cache afterwards, and whether the token endpoint was called. -/
structure TokenResult where
  result : Except JsError String
  cache : TokenCache
  networkCall : Bool
  deriving DecidableEq, Repr

/-- `getAccessToken`: serve from cache while valid; otherwise hit the token
endpoint (`fetch` is the axios result; `now` the time of the cache check,
`nowIssue` the time the response is processed). -/
def getAccessToken (c : TokenCache) (now nowIssue : Int)
    (fetch : Except JsError TokenRespBody) : TokenResult :=
  if cacheValid c now then
    ⟨.ok (c.accessToken.getD ""), c, false⟩
  else
    match fetch with
    | .error e => ⟨.error e, c, true⟩
    | .ok r =>
      if r.status = "success" then
        ⟨.ok r.access_token,
          ⟨some r.access_token, some (nowIssue + 2 * 60 * 60 * 1000)⟩, true⟩
      else
        ⟨.error ⟨"Failed to get access token", none⟩, c, true⟩

/-! ### Payment creation — `POST /api/payment/create` -/

/-- A document of the `payments` collection. -/
structure PaymentRec where
  grant_id : String
  token : String
  amount : Int
  currency : String
  userId : Option String
  metadata : Option String
  status : String
  created_at : Nat
  deriving DecidableEq, Repr

/-- Body of the gateway's transaction-create response: its `status`, the
`data.grant_id`/`data.token` identifiers, and the raw body echoed to the
caller. -/
structure TxResp where
  status : String
  grant_id : String
  token : String
  raw : String
  deriving DecidableEq, Repr

structure PaymentCreateBody where
  amount : Option Int
  currency : Option String
  metadata : Option String
  userId : Option String
  deriving DecidableEq, Repr

/-- Effect oracles for one payment-create call: token acquisition, the
transaction-create axios call, and the Firestore `add` (`none` = success). -/
structure PaymentCreateOracles where
  token : Except JsError String
  createTx : Except JsError TxResp
  add : Option JsError
  deriving DecidableEq, Repr

/-- Outcome of one payment-create call: the response (`.ok` carries the raw
gateway body), the `payments` collection, and the gateway calls made. -/
structure PaymentOpResult where
  resp : ApiResp String
  payments : List PaymentRec
  calls : List GwCall
  deriving DecidableEq, Repr

/-- `POST /api/payment/create`: validate `amount`/`currency`, call the
gateway, persist a `pending` PaymentRecord when the gateway body reports
success, and echo the raw gateway body.  The Firestore `add` sits inside the
`try`, so its failure reaches the catch. -/
def paymentCreate (ps : List PaymentRec) (b : PaymentCreateBody)
    (o : PaymentCreateOracles) (now : Nat) : PaymentOpResult :=
  if truthyI b.amount && truthyS b.currency then
    match o.token with
    | .error e => ⟨.err 500 "Failed to create payment" (some (errDetails e)), ps, []⟩
    | .ok _ =>
      match o.createTx with
      | .error e =>
        ⟨.err 500 "Failed to create payment" (some (errDetails e)), ps,
          [.createTransaction (b.amount.getD 0) (b.currency.getD "")]⟩
      | .ok r =>
        if r.status = "success" then
          match o.add with
          | some e =>
            ⟨.err 500 "Failed to create payment" (some (errDetails e)), ps,
              [.createTransaction (b.amount.getD 0) (b.currency.getD "")]⟩
          | none =>
            ⟨.ok r.raw,
              ps ++ [{ grant_id := r.grant_id, token := r.token
                       amount := b.amount.getD 0, currency := b.currency.getD ""
                       userId := jsOrNullS b.userId
                       metadata := jsOrNullS b.metadata
                       status := "pending", created_at := now }],
              [.createTransaction (b.amount.getD 0) (b.currency.getD "")]⟩
        else
          ⟨.ok r.raw, ps,
            [.createTransaction (b.amount.getD 0) (b.currency.getD "")]⟩
  else
    ⟨.err 400 "Amount and currency are required" none, ps, []⟩

/-! ### Reachable stores -/

/-- The status strings any route ever writes. -/
def statusOk (w : Withdrawal) : Prop :=
  w.status = "pending" ∨ w.status = "approved" ∨
    w.status = "rejected" ∨ w.status = "failed"

def storeStatusOk (s : Store) : Prop := ∀ p ∈ s, statusOk p.2

/-- Stores reachable from the empty collection through the three mutating
withdrawal routes, under arbitrary inputs, oracles and times. -/
inductive Reachable : Store → Prop where
  | init : Reachable []
  | create (s : Store) (b : WithdrawalCreateBody) (o : CreateOracles) (now : Nat) :
      Reachable s → Reachable (createWithdrawal s b o now).withdrawals
  | approve (s : Store) (id : String) (adminId : Option String)
      (o : ApproveOracles) (now : Nat) :
      Reachable s → Reachable (approveWithdrawal s id adminId o now).withdrawals
  | reject (s : Store) (id : String) (reason adminId : Option String)
      (o : RejectOracles) (now : Nat) :
      Reachable s → Reachable (rejectWithdrawal s id reason adminId o now).withdrawals

/-! ### Store lemmas -/

theorem storeGet_storeUpdate (s : Store) (id : String)
    (f : Withdrawal → Withdrawal) (w : Withdrawal)
    (h : storeGet s id = some w) :
    storeGet (storeUpdate s id f) id = some (f w) := by
  induction s with
  | nil => simp [storeGet] at h
  | cons hd tl ih =>
    obtain ⟨k, v⟩ := hd
    by_cases hk : k = id
    · subst hk
      simp [storeGet] at h
      simp [storeUpdate, storeGet, h]
    · simp [storeGet, hk] at h
      simp [storeUpdate, storeGet, hk]
      exact ih h

theorem storeStatusOk_update (s : Store) (id : String)
    (f : Withdrawal → Withdrawal) (hs : storeStatusOk s)
    (hf : ∀ w, statusOk (f w)) : storeStatusOk (storeUpdate s id f) := by
  induction s with
  | nil => intro p hp; simp [storeUpdate] at hp
  | cons hd tl ih =>
    have hhd : statusOk hd.2 := hs hd (by simp)
    have htl : storeStatusOk tl := fun p hp => hs p (List.mem_cons_of_mem _ hp)
    intro p hp
    by_cases hk : hd.1 = id
    · simp [storeUpdate, hk] at hp
      rcases hp with hp | hp
      · subst hp; exact hf hd.2
      · exact ih htl p hp
    · simp [storeUpdate, hk] at hp
      rcases hp with hp | hp
      · subst hp; exact hhd
      · exact ih htl p hp

theorem storeStatusOk_append_one (s : Store) (p : String × Withdrawal)
    (hs : storeStatusOk s) (hp : statusOk p.2) :
    storeStatusOk (s ++ [p]) := by
  intro q hq
  rcases List.mem_append.mp hq with h | h
  · exact hs q h
  · simp at h
    subst h
    exact hp

theorem statusOk_approvedUpdate (adminId : Option String) (now : Nat)
    (resp : String) (w : Withdrawal) : statusOk (approvedUpdate adminId now resp w) := by
  simp [statusOk, approvedUpdate]

theorem statusOk_failedUpdate (now : Nat) (e : JsError) (w : Withdrawal) :
    statusOk (failedUpdate now e w) := by
  simp [statusOk, failedUpdate]

theorem statusOk_rejectedUpdate (reason adminId : Option String) (now : Nat)
    (w : Withdrawal) : statusOk (rejectedUpdate reason adminId now w) := by
  simp [statusOk, rejectedUpdate]

theorem statusOk_newWithdrawal (b : WithdrawalCreateBody) (snapshot : String)
    (now : Nat) : statusOk (newWithdrawal b snapshot now) := by
  simp [statusOk, newWithdrawal]

theorem createWithdrawal_preserves_statusOk (s : Store)
    (b : WithdrawalCreateBody) (o : CreateOracles) (now : Nat)
    (hs : storeStatusOk s) :
    storeStatusOk (createWithdrawal s b o now).withdrawals := by
  unfold createWithdrawal
  split
  · split
    · exact hs
    · split
      · exact hs
      · split
        · exact hs
        · split
          · exact hs
          · exact storeStatusOk_append_one s _ hs (statusOk_newWithdrawal ..)
  · exact hs

theorem approveCatch_preserves_statusOk (s : Store) (id : String) (e : JsError)
    (updFailed : Option JsError) (now : Nat) (calls : List GwCall)
    (hs : storeStatusOk s) :
    storeStatusOk (approveCatch s id e updFailed now calls).withdrawals := by
  unfold approveCatch
  split
  · exact storeStatusOk_update s id _ hs (statusOk_failedUpdate now e)
  · exact hs

theorem approveWithdrawal_preserves_statusOk (s : Store) (id : String)
    (adminId : Option String) (o : ApproveOracles) (now : Nat)
    (hs : storeStatusOk s) :
    storeStatusOk (approveWithdrawal s id adminId o now).withdrawals := by
  unfold approveWithdrawal
  split
  · exact approveCatch_preserves_statusOk _ _ _ _ _ _ hs
  · split
    · exact hs
    · split
      · exact hs
      · split
        · exact approveCatch_preserves_statusOk _ _ _ _ _ _ hs
        · split
          · exact approveCatch_preserves_statusOk _ _ _ _ _ _ hs
          · split
            · exact approveCatch_preserves_statusOk _ _ _ _ _ _ hs
            · split
              · exact approveCatch_preserves_statusOk _ _ _ _ _ _
                  (storeStatusOk_update s id _ hs (fun w => statusOk_approvedUpdate _ _ _ w))
              · split
                · exact storeStatusOk_update s id _ hs (fun w => statusOk_approvedUpdate _ _ _ w)
                · exact storeStatusOk_update s id _ hs (fun w => statusOk_approvedUpdate _ _ _ w)

theorem rejectWithdrawal_preserves_statusOk (s : Store) (id : String)
    (reason adminId : Option String) (o : RejectOracles) (now : Nat)
    (hs : storeStatusOk s) :
    storeStatusOk (rejectWithdrawal s id reason adminId o now).withdrawals := by
  unfold rejectWithdrawal
  split
  · exact hs
  · split
    · exact hs
    · split
      · exact hs
      · split
        · exact hs
        · split
          · exact storeStatusOk_update s id _ hs (fun w => statusOk_rejectedUpdate _ _ _ w)
          · split
            · exact storeStatusOk_update s id _ hs (fun w => statusOk_rejectedUpdate _ _ _ w)
            · exact storeStatusOk_update s id _ hs (fun w => statusOk_rejectedUpdate _ _ _ w)

theorem reachable_storeStatusOk (s : Store) (h : Reachable s) :
    storeStatusOk s := by
  induction h with
  | init => intro p hp; simp at hp
  | create s b o now _ ih => exact createWithdrawal_preserves_statusOk s b o now ih
  | approve s id adminId o now _ ih =>
    exact approveWithdrawal_preserves_statusOk s id adminId o now ih
  | reject s id reason adminId o now _ ih =>
    exact rejectWithdrawal_preserves_statusOk s id reason adminId o now ih

theorem stats_partition (s : Store) (hs : storeStatusOk s) :
    (statsOf s).total =
      (statsOf s).pending + (statsOf s).approved +
        (statsOf s).rejected + (statsOf s).failed := by
  simp only [statsOf]
  induction s with
  | nil => simp
  | cons hd tl ih =>
    have hhd : statusOk hd.2 := hs hd (by simp)
    have htl : storeStatusOk tl := fun p hp => hs p (List.mem_cons_of_mem _ hp)
    have ih' := ih htl
    rcases hhd with h | h | h | h <;>
      simp only [List.filter_cons, List.length_cons, h] <;>
      simp <;> omega

/-! ### Endpoint run lemmas -/

theorem approveWithdrawal_success_run
    (s : Store) (id : String) (w : Withdrawal) (adminId : Option String)
    (o : ApproveOracles) (now : Nat) (tok resp : String)
    (hgd : o.getDoc = none)
    (hget : storeGet s id = some w) (hp : w.status = "pending")
    (htok : o.token = .ok tok) (hsend : o.send = .ok resp)
    (hupd : o.updApproved = none) (hrr : o.reread = none) :
    approveWithdrawal s id adminId o now =
      ⟨.ok (renderWithdrawal id (approvedUpdate adminId now resp w)),
        storeUpdate s id (approvedUpdate adminId now resp),
        [.sendMoney (buildSendMoneyReq w)]⟩ := by
  have h1 := storeGet_storeUpdate s id (approvedUpdate adminId now resp) w hget
  simp [approveWithdrawal, hgd, hget, hp, htok, hsend, hupd, hrr, h1]

theorem approveWithdrawal_sendfail_run
    (s : Store) (id : String) (w : Withdrawal) (adminId : Option String)
    (o : ApproveOracles) (now : Nat) (tok : String) (e : JsError)
    (hgd : o.getDoc = none)
    (hget : storeGet s id = some w) (hp : w.status = "pending")
    (htok : o.token = .ok tok) (hsend : o.send = .error e) :
    approveWithdrawal s id adminId o now =
      approveCatch s id e o.updFailed now [.sendMoney (buildSendMoneyReq w)] := by
  simp [approveWithdrawal, hgd, hget, hp, htok, hsend]

theorem rejectWithdrawal_success_run
    (s : Store) (id : String) (w : Withdrawal) (reason adminId : Option String)
    (o : RejectOracles) (now : Nat)
    (hgd : o.getDoc = none)
    (hget : storeGet s id = some w) (hp : w.status = "pending")
    (hupd : o.upd = none) (hrr : o.reread = none) :
    rejectWithdrawal s id reason adminId o now =
      ⟨.ok (renderWithdrawal id (rejectedUpdate reason adminId now w)),
        storeUpdate s id (rejectedUpdate reason adminId now), []⟩ := by
  have h1 := storeGet_storeUpdate s id (rejectedUpdate reason adminId now) w hget
  simp [rejectWithdrawal, hgd, hget, hp, hupd, hrr, h1]

/-! ### Concrete fixtures -/

/-- A pending withdrawal document, as creation persists it. -/
def wPending : Withdrawal :=
  { email_or_phone := "a@b.com", currency := "HTG", amount := 500
    payment_method_id := 3, moncash_account_number := none
    userId := none, userEmail := none, receiver_info := "rcv"
    status := "pending", created_at := 0, processed_at := none
    processed_by := none, ezipay_response := none, error_message := none
    rejection_reason := none }

/-- An already-approved withdrawal document. -/
def wApproved : Withdrawal := { wPending with status := "approved" }

/-- A gateway/store error with no axios response attached. -/
def eBoom : JsError := { message := "boom", response := none }

/-- Approve oracles on which every effect succeeds. -/
def oApproveOk : ApproveOracles :=
  { getDoc := none, token := .ok "tok", send := .ok "resp"
    updApproved := none, reread := none, updFailed := none }

/-- Approve oracles on which the send-money gateway call fails. -/
def oSendFail : ApproveOracles :=
  { getDoc := none, token := .ok "tok", send := .error eBoom
    updApproved := none, reread := none, updFailed := none }

/-- Approve oracles on which the initial document read throws. -/
def oApproveGetFail : ApproveOracles :=
  { getDoc := some eBoom, token := .ok "tok", send := .ok "resp"
    updApproved := none, reread := none, updFailed := none }

/-- Reject oracles on which every effect succeeds. -/
def oRejectOk : RejectOracles := { getDoc := none, upd := none, reread := none }

/-- Reject oracles on which the initial document read throws. -/
def oRejectGetFail : RejectOracles :=
  { getDoc := some eBoom, upd := none, reread := none }

/-! ### Claim theorems -/

/-- C1 counterexample: on an already-approved record, an Approve call whose
initial `withdrawalRef.get()` throws does not fail with HTTP 400; it lands in
the catch block, which overwrites the record to status `failed` and responds
500 — and a Reject call with a throwing initial read responds 500 as well. -/
theorem nonpending_get_failure_overwrites :
    (approveWithdrawal [("w1", wApproved)] "w1" none oApproveGetFail 7).resp =
      .err 500 "Failed to process withdrawal" (some "boom") ∧
    storeGet (approveWithdrawal [("w1", wApproved)] "w1" none
        oApproveGetFail 7).withdrawals "w1" =
      some (failedUpdate 7 eBoom wApproved) ∧
    (failedUpdate 7 eBoom wApproved).status = "failed" ∧
    wApproved.status = "approved" ∧
    (rejectWithdrawal [("w1", wApproved)] "w1" none none oRejectGetFail 7).resp =
      .err 500 "Failed to reject withdrawal" none := by
  exact ⟨by decide, by decide, rfl, rfl, rfl⟩

/-- C1 amended: once a withdrawal request's status is not `pending`, any
Approve or Reject call on its id whose initial document read succeeds fails
with HTTP 400 and body `{error: 'Withdrawal already processed'}`, leaves the
stored collection completely unchanged, and makes no gateway call.  (When the
initial read throws, both routes respond 500 instead, and Approve's catch
block additionally overwrites the record to `failed`.) -/
theorem nonpending_transition_at_most_once
    (s : Store) (id : String) (w : Withdrawal) (adminId reason : Option String)
    (oA : ApproveOracles) (oR : RejectOracles) (nowA nowR : Nat)
    (hgA : oA.getDoc = none) (hgR : oR.getDoc = none)
    (hget : storeGet s id = some w) (hnp : w.status ≠ "pending") :
    approveWithdrawal s id adminId oA nowA =
      ⟨.err 400 "Withdrawal already processed" none, s, []⟩ ∧
    rejectWithdrawal s id reason adminId oR nowR =
      ⟨.err 400 "Withdrawal already processed" none, s, []⟩ := by
  constructor
  · simp [approveWithdrawal, hgA, hget, hnp]
  · simp [rejectWithdrawal, hgR, hget, hnp]

/-- Witness for the amended C1: a concrete already-approved record with a
succeeding initial read. -/
theorem nonpending_transition_at_most_once_witness :
    approveWithdrawal [("w1", wApproved)] "w1" none oApproveOk 7 =
      ⟨.err 400 "Withdrawal already processed" none, [("w1", wApproved)], []⟩ ∧
    rejectWithdrawal [("w1", wApproved)] "w1" none none oRejectOk 7 =
      ⟨.err 400 "Withdrawal already processed" none, [("w1", wApproved)], []⟩ :=
  nonpending_transition_at_most_once [("w1", wApproved)] "w1" wApproved
    none none oApproveOk oRejectOk 7 7 rfl rfl (by decide) (by decide)

/-- C2: when the payout gateway call on a pending request fails, approve
persists status `failed` with `processed_at` set to now and the error detail
recorded; a failure of that compensating write is swallowed (the response is
the same 500 either way, and the store is then untouched); and the call
responds HTTP 500 reporting the original cause. -/
theorem approve_gateway_failure_compensates
    (s : Store) (id : String) (w : Withdrawal) (adminId : Option String)
    (o : ApproveOracles) (now : Nat) (tok : String) (e : JsError)
    (hgd : o.getDoc = none)
    (hget : storeGet s id = some w) (hp : w.status = "pending")
    (htok : o.token = .ok tok) (hsend : o.send = .error e) :
    (approveWithdrawal s id adminId o now).resp =
      .err 500 "Failed to process withdrawal" (some (errDetails e)) ∧
    (o.updFailed = none →
      storeGet (approveWithdrawal s id adminId o now).withdrawals id =
        some (failedUpdate now e w)) ∧
    (failedUpdate now e w).status = "failed" ∧
    (failedUpdate now e w).processed_at = some now ∧
    (failedUpdate now e w).error_message = some (errMsgField e) ∧
    (∀ e2, o.updFailed = some e2 →
      (approveWithdrawal s id adminId o now).withdrawals = s) := by
  have hred := approveWithdrawal_sendfail_run s id w adminId o now tok e hgd hget hp htok hsend
  refine ⟨?_, ?_, rfl, rfl, rfl, ?_⟩
  · rw [hred]
    rfl
  · intro hcomp
    rw [hred]
    simp [approveCatch, hcomp]
    exact storeGet_storeUpdate s id _ w hget
  · intro e2 hcomp
    rw [hred]
    simp [approveCatch, hcomp]

/-- Witness for C2: a concrete pending record with a failing payout call. -/
theorem approve_gateway_failure_compensates_witness :
    (approveWithdrawal [("w1", wPending)] "w1" none oSendFail 5).resp =
      .err 500 "Failed to process withdrawal" (some (errDetails eBoom)) ∧
    storeGet (approveWithdrawal [("w1", wPending)] "w1" none oSendFail 5).withdrawals "w1" =
      some (failedUpdate 5 eBoom wPending) := by
  have h := approve_gateway_failure_compensates [("w1", wPending)] "w1" wPending
    none oSendFail 5 "tok" eBoom rfl (by decide) rfl rfl rfl
  exact ⟨h.1, h.2.1 rfl⟩

/-- C3 counterexample: an approve whose payout call fails leaves the record in
terminal status `failed` with `processed_by` still null — even when an
operator id was supplied — because the compensating update writes only
`status`, `processed_at` and `error_message`. -/
theorem failed_record_null_processed_by :
    storeGet (approveWithdrawal [("w1", wPending)] "w1" (some "op7") oSendFail 5).withdrawals "w1" =
      some (failedUpdate 5 eBoom wPending) ∧
    (failedUpdate 5 eBoom wPending).status = "failed" ∧
    (failedUpdate 5 eBoom wPending).processed_by = none := by
  exact ⟨by decide, rfl, rfl⟩

/-- C3 amended: `processed_by` is null at creation; the approved and rejected
transitions set it to the acting operator's id or the default marker
`'admin'`; the `failed` transition does not write `processed_by`, so a record
that entered `failed` from `pending` keeps it null. -/
theorem processed_by_terminal_transitions
    (s : Store) (id : String) (w : Withdrawal) (adminId reason : Option String)
    (oA oF : ApproveOracles) (oR : RejectOracles) (now : Nat)
    (tokA tokF resp : String) (e : JsError)
    (b : WithdrawalCreateBody) (snap : String)
    (hget : storeGet s id = some w) (hp : w.status = "pending")
    (hpb : w.processed_by = none)
    (hgA : oA.getDoc = none) (htokA : oA.token = .ok tokA)
    (hsendA : oA.send = .ok resp)
    (hupdA : oA.updApproved = none) (hrrA : oA.reread = none)
    (hgF : oF.getDoc = none) (htokF : oF.token = .ok tokF)
    (hsendF : oF.send = .error e) (hcompF : oF.updFailed = none)
    (hgR : oR.getDoc = none) (hupdR : oR.upd = none) (hrrR : oR.reread = none) :
    (newWithdrawal b snap now).processed_by = none ∧
    storeGet (approveWithdrawal s id adminId oA now).withdrawals id =
      some (approvedUpdate adminId now resp w) ∧
    (approvedUpdate adminId now resp w).processed_by = some (jsOrS adminId "admin") ∧
    storeGet (rejectWithdrawal s id reason adminId oR now).withdrawals id =
      some (rejectedUpdate reason adminId now w) ∧
    (rejectedUpdate reason adminId now w).processed_by = some (jsOrS adminId "admin") ∧
    storeGet (approveWithdrawal s id adminId oF now).withdrawals id =
      some (failedUpdate now e w) ∧
    (failedUpdate now e w).processed_by = none := by
  refine ⟨rfl, ?_, rfl, ?_, rfl, ?_, hpb⟩
  · rw [approveWithdrawal_success_run s id w adminId oA now tokA resp hgA hget hp
      htokA hsendA hupdA hrrA]
    exact storeGet_storeUpdate s id _ w hget
  · rw [rejectWithdrawal_success_run s id w reason adminId oR now hgR hget hp hupdR hrrR]
    exact storeGet_storeUpdate s id _ w hget
  · rw [approveWithdrawal_sendfail_run s id w adminId oF now tokF e hgF hget hp htokF hsendF]
    simp [approveCatch, hcompF]
    exact storeGet_storeUpdate s id _ w hget

/-- Witness for the amended C3 at a concrete pending record. -/
theorem processed_by_terminal_transitions_witness :
    storeGet (approveWithdrawal [("w1", wPending)] "w1" none oApproveOk 5).withdrawals "w1" =
      some (approvedUpdate none 5 "resp" wPending) ∧
    (approvedUpdate none 5 "resp" wPending).processed_by = some "admin" ∧
    (rejectedUpdate none none 5 wPending).processed_by = some "admin" ∧
    (failedUpdate 5 eBoom wPending).processed_by = none := by
  have h := processed_by_terminal_transitions [("w1", wPending)] "w1" wPending
    none none oApproveOk oSendFail oRejectOk 5 "tok" "tok" "resp" eBoom
    ⟨some "a@b.com", some "HTG", some 500, some 3, none, none, none⟩ "rcv"
    (by decide) rfl rfl rfl rfl rfl rfl rfl rfl rfl rfl rfl rfl rfl rfl
  exact ⟨h.2.1, h.2.2.1, h.2.2.2.2.1, h.2.2.2.2.2.2⟩

/-- A create body whose four mandatory fields are all present and positive. -/
def bGood : WithdrawalCreateBody :=
  { email_or_phone := some "a@b.com", currency := some "HTG", amount := some 500
    payment_method_id := some 3, moncash_account_number := none
    userId := none, userEmail := none }

/-- The same body with a negative amount. -/
def bNegAmount : WithdrawalCreateBody := { bGood with amount := some (-5) }

/-- The same body with amount zero. -/
def bZeroAmount : WithdrawalCreateBody := { bGood with amount := some 0 }

/-- Create oracles on which every effect succeeds and verification reports
success. -/
def oCreateOk : CreateOracles :=
  { token := .ok "tok", verify := .ok ⟨"success", "rcv"⟩, add := .ok "w9" }

/-- Create oracles on which verification reports a non-success status. -/
def oVerifyFail : CreateOracles :=
  { token := .ok "tok", verify := .ok ⟨"error", "bad"⟩, add := .ok "w9" }

/-- C4 counterexample: a Create call with amount = -5 (all four fields
present) is NOT rejected by validation — `!amount` is false for a negative
number — so the operation proceeds and persists a record with the negative
amount. -/
theorem create_negative_amount_not_rejected :
    (createWithdrawal [] bNegAmount oCreateOk 0).resp = .ok ⟨"w9", "pending"⟩ ∧
    (createWithdrawal [] bNegAmount oCreateOk 0).withdrawals =
      [("w9", newWithdrawal bNegAmount "rcv" 0)] ∧
    (newWithdrawal bNegAmount "rcv" 0).amount = -5 := by
  exact ⟨by decide, by decide, rfl⟩

/-- C4 amended: Create fails with ValidationError (HTTP 400 'Missing required
fields'), writes no record and makes no gateway call exactly when one of the
four mandatory fields is JavaScript-falsy — missing, the empty string, or
zero; negative amounts and payment-method ids pass this validation. -/
theorem create_falsy_field_validation
    (s : Store) (b : WithdrawalCreateBody) (o : CreateOracles) (now : Nat)
    (h : validFields b = false) :
    createWithdrawal s b o now = ⟨.err 400 "Missing required fields" none, s, []⟩ := by
  simp [createWithdrawal, h]

/-- Witness for the amended C4: amount = 0 is falsy and rejected. -/
theorem create_falsy_field_validation_witness :
    createWithdrawal [] bZeroAmount oCreateOk 3 =
      ⟨.err 400 "Missing required fields" none, [], []⟩ :=
  create_falsy_field_validation [] bZeroAmount oCreateOk 3 (by decide)

/-- C5: once the mandatory fields pass validation, a non-success receiver
verification yields HTTP 400 'Invalid receiver' with nothing persisted, while
a success verification persists a new `pending` record carrying the
verification snapshot and returns the new identifier with status
`'pending'`. -/
theorem create_verification_gate
    (s : Store) (b : WithdrawalCreateBody) (o : CreateOracles) (now : Nat)
    (tok wid : String) (vr : VerifyResp)
    (hv : validFields b = true) (htok : o.token = .ok tok)
    (hvr : o.verify = .ok vr) :
    (vr.status ≠ "success" →
      createWithdrawal s b o now =
        ⟨.err 400 "Invalid receiver" none, s,
          [.verifyReceiver (b.email_or_phone.getD "")]⟩) ∧
    (vr.status = "success" → o.add = .ok wid →
      createWithdrawal s b o now =
        ⟨.ok ⟨wid, "pending"⟩, s ++ [(wid, newWithdrawal b vr.data now)],
          [.verifyReceiver (b.email_or_phone.getD "")]⟩ ∧
      (newWithdrawal b vr.data now).status = "pending" ∧
      (newWithdrawal b vr.data now).receiver_info = vr.data) := by
  constructor
  · intro hns
    simp [createWithdrawal, hv, htok, hvr, hns]
  · intro hss hadd
    refine ⟨?_, rfl, rfl⟩
    simp [createWithdrawal, hv, htok, hvr, hss, hadd]

/-- Witness for C5: one failing and one succeeding verification. -/
theorem create_verification_gate_witness :
    createWithdrawal [] bGood oVerifyFail 2 =
      ⟨.err 400 "Invalid receiver" none, [], [.verifyReceiver "a@b.com"]⟩ ∧
    createWithdrawal [] bGood oCreateOk 2 =
      ⟨.ok ⟨"w9", "pending"⟩, [("w9", newWithdrawal bGood "rcv" 2)],
        [.verifyReceiver "a@b.com"]⟩ := by
  have h1 := (create_verification_gate [] bGood oVerifyFail 2 "tok" "w9"
    ⟨"error", "bad"⟩ (by decide) rfl rfl).1 (by decide)
  have h2 := ((create_verification_gate [] bGood oCreateOk 2 "tok" "w9"
    ⟨"success", "rcv"⟩ (by decide) rfl rfl).2 rfl rfl).1
  exact ⟨h1, h2⟩

/-- Payment-create body with amount and currency present. -/
def pbGood : PaymentCreateBody :=
  { amount := some 100, currency := some "HTG", metadata := none, userId := none }

/-- Payment oracles: gateway succeeds with a success body, Firestore add
succeeds. -/
def oPayOk : PaymentCreateOracles :=
  { token := .ok "tok", createTx := .ok ⟨"success", "g1", "t1", "RAW"⟩
    add := none }

/-- Payment oracles: gateway succeeds with a success body, Firestore add
throws. -/
def oPayAddFail : PaymentCreateOracles :=
  { token := .ok "tok", createTx := .ok ⟨"success", "g1", "t1", "RAW"⟩
    add := some eBoom }

/-- C6 counterexample: the Firestore `add` sits inside the `try`, so when the
gateway call succeeds but the PaymentRecord write throws, the caller receives
HTTP 500 'Failed to create payment' — not the raw gateway response. -/
theorem payment_persistence_failure_is_surfaced :
    (paymentCreate [] pbGood oPayAddFail 0).resp =
      .err 500 "Failed to create payment" (some "boom") ∧
    (paymentCreate [] pbGood oPayAddFail 0).payments = [] := by
  exact ⟨by decide, by decide⟩

/-- C6 amended: after a successful gateway call, the raw gateway body is
echoed when the body does not report success (nothing is persisted then) and
when persistence succeeds; a persistence failure after a success body is
surfaced to the caller as HTTP 500 with the store error's details. -/
theorem payment_create_response_policy
    (ps : List PaymentRec) (b : PaymentCreateBody) (o : PaymentCreateOracles)
    (now : Nat) (tok : String) (r : TxResp)
    (hv : (truthyI b.amount && truthyS b.currency) = true)
    (htok : o.token = .ok tok) (htx : o.createTx = .ok r) :
    (r.status ≠ "success" →
      (paymentCreate ps b o now).resp = .ok r.raw ∧
      (paymentCreate ps b o now).payments = ps) ∧
    (r.status = "success" → o.add = none →
      (paymentCreate ps b o now).resp = .ok r.raw) ∧
    (∀ e, r.status = "success" → o.add = some e →
      (paymentCreate ps b o now).resp =
        .err 500 "Failed to create payment" (some (errDetails e)) ∧
      (paymentCreate ps b o now).payments = ps) := by
  refine ⟨?_, ?_, ?_⟩
  · intro hns
    constructor <;> simp [paymentCreate, hv, htok, htx, hns]
  · intro hss hadd
    simp [paymentCreate, hv, htok, htx, hss, hadd]
  · intro e hss hadd
    constructor <;> simp [paymentCreate, hv, htok, htx, hss, hadd]

/-- Witness for the amended C6: raw echo on full success, 500 on persistence
failure. -/
theorem payment_create_response_policy_witness :
    (paymentCreate [] pbGood oPayOk 0).resp = .ok "RAW" ∧
    (paymentCreate [] pbGood oPayAddFail 0).resp =
      .err 500 "Failed to create payment" (some (errDetails eBoom)) := by
  have h1 := (payment_create_response_policy [] pbGood oPayOk 0 "tok"
    ⟨"success", "g1", "t1", "RAW"⟩ (by decide) rfl rfl).2.1 rfl rfl
  have h2 := ((payment_create_response_policy [] pbGood oPayAddFail 0 "tok"
    ⟨"success", "g1", "t1", "RAW"⟩ (by decide) rfl rfl).2.2 eBoom rfl rfl).1
  exact ⟨h1, h2⟩

/-- C7: `getAccessToken` is a pure cache around the token endpoint: while a
cached token exists and the current time is strictly before the recorded
expiry it is returned with no network call and no cache change; otherwise the
endpoint is called, a success response stores the token with expiry set to
issuance time plus exactly two hours, and a non-success response or transport
failure propagates an error leaving the cache unchanged. -/
theorem getAccessToken_cache_contract
    (c : TokenCache) (now nowIssue : Int) (fetch : Except JsError TokenRespBody) :
    (cacheValid c now = true →
      getAccessToken c now nowIssue fetch =
        ⟨.ok (c.accessToken.getD ""), c, false⟩) ∧
    (cacheValid c now = false → ∀ r, fetch = .ok r → r.status = "success" →
      getAccessToken c now nowIssue fetch =
        ⟨.ok r.access_token,
          ⟨some r.access_token, some (nowIssue + 2 * 60 * 60 * 1000)⟩, true⟩) ∧
    (cacheValid c now = false → ∀ r, fetch = .ok r → r.status ≠ "success" →
      getAccessToken c now nowIssue fetch =
        ⟨.error ⟨"Failed to get access token", none⟩, c, true⟩) ∧
    (cacheValid c now = false → ∀ e, fetch = .error e →
      getAccessToken c now nowIssue fetch = ⟨.error e, c, true⟩) := by
  refine ⟨?_, ?_, ?_, ?_⟩
  · intro h
    simp [getAccessToken, h]
  · intro h r hr hs
    simp [getAccessToken, h, hr, hs]
  · intro h r hr hs
    simp [getAccessToken, h, hr, hs]
  · intro h e he
    simp [getAccessToken, h, he]

/-- Witness for C7: the four cases at concrete caches and responses. -/
theorem getAccessToken_cache_contract_witness :
    getAccessToken ⟨some "t", some 10⟩ 5 5 (.error eBoom) =
      ⟨.ok "t", ⟨some "t", some 10⟩, false⟩ ∧
    getAccessToken ⟨none, none⟩ 5 6 (.ok ⟨"success", "tk"⟩) =
      ⟨.ok "tk", ⟨some "tk", some (6 + 2 * 60 * 60 * 1000)⟩, true⟩ ∧
    getAccessToken ⟨none, none⟩ 5 6 (.ok ⟨"error", "tk"⟩) =
      ⟨.error ⟨"Failed to get access token", none⟩, ⟨none, none⟩, true⟩ ∧
    getAccessToken ⟨none, none⟩ 5 6 (.error eBoom) =
      ⟨.error eBoom, ⟨none, none⟩, true⟩ := by
  have h1 := (getAccessToken_cache_contract ⟨some "t", some 10⟩ 5 5
    (.error eBoom)).1 (by decide)
  have h2 := (getAccessToken_cache_contract ⟨none, none⟩ 5 6
    (.ok ⟨"success", "tk"⟩)).2.1 (by decide) ⟨"success", "tk"⟩ rfl rfl
  have h3 := (getAccessToken_cache_contract ⟨none, none⟩ 5 6
    (.ok ⟨"error", "tk"⟩)).2.2.1 (by decide) ⟨"error", "tk"⟩ rfl (by decide)
  have h4 := (getAccessToken_cache_contract ⟨none, none⟩ 5 6
    (.error eBoom)).2.2.2 (by decide) eBoom rfl
  exact ⟨h1, h2, h3, h4⟩

/-- C8: Reject on an existing pending request makes no gateway call, updates
the record to status `rejected` with `processed_at` set, `processed_by` the
given admin id or the default `'admin'`, `rejection_reason` the given reason
or the default text, leaves `ezipay_response` and `error_message` absent, and
returns the updated timestamp-rendered record. -/
theorem reject_pending_success
    (s : Store) (id : String) (w : Withdrawal) (reason adminId : Option String)
    (o : RejectOracles) (now : Nat)
    (hgd : o.getDoc = none)
    (hget : storeGet s id = some w) (hp : w.status = "pending")
    (hupd : o.upd = none) (hrr : o.reread = none)
    (hez : w.ezipay_response = none) (herr : w.error_message = none) :
    rejectWithdrawal s id reason adminId o now =
      ⟨.ok (renderWithdrawal id (rejectedUpdate reason adminId now w)),
        storeUpdate s id (rejectedUpdate reason adminId now), []⟩ ∧
    (rejectedUpdate reason adminId now w).status = "rejected" ∧
    (rejectedUpdate reason adminId now w).processed_at = some now ∧
    (rejectedUpdate reason adminId now w).processed_by =
      some (jsOrS adminId "admin") ∧
    (rejectedUpdate reason adminId now w).rejection_reason =
      some (jsOrS reason "No reason provided") ∧
    (rejectedUpdate reason adminId now w).ezipay_response = none ∧
    (rejectedUpdate reason adminId now w).error_message = none ∧
    (renderWithdrawal id (rejectedUpdate reason adminId now w)).processed_at =
      some (isoOf now) :=
  ⟨rejectWithdrawal_success_run s id w reason adminId o now hgd hget hp hupd hrr,
    rfl, rfl, rfl, rfl, hez, herr, rfl⟩

/-- Witness for C8 at a concrete pending record with no reason and no admin
id given. -/
theorem reject_pending_success_witness :
    rejectWithdrawal [("w1", wPending)] "w1" none none oRejectOk 5 =
      ⟨.ok (renderWithdrawal "w1" (rejectedUpdate none none 5 wPending)),
        storeUpdate [("w1", wPending)] "w1" (rejectedUpdate none none 5), []⟩ ∧
    (rejectedUpdate none none 5 wPending).rejection_reason =
      some "No reason provided" ∧
    (rejectedUpdate none none 5 wPending).ezipay_response = none := by
  have h := reject_pending_success [("w1", wPending)] "w1" wPending none none
    oRejectOk 5 rfl (by decide) rfl rfl rfl rfl rfl
  exact ⟨h.1, h.2.2.2.2.1, h.2.2.2.2.2.1⟩

/-- C9: the approve error handler runs for any exception after the pending
check, not only payout failures: when the payout call succeeds but the
update-to-approved throws, the record is overwritten to `failed` with an
`error_message`; when instead the re-read after a successful approved update
throws, the already-approved record (gateway response included) is
overwritten to `failed` — in both cases the payout had been executed. -/
theorem approve_post_payout_failure_marks_failed
    (s : Store) (id : String) (w : Withdrawal) (adminId : Option String)
    (o : ApproveOracles) (now : Nat) (tok resp : String) (e : JsError)
    (hgd : o.getDoc = none)
    (hget : storeGet s id = some w) (hp : w.status = "pending")
    (htok : o.token = .ok tok) (hsend : o.send = .ok resp)
    (hcomp : o.updFailed = none) :
    (o.updApproved = some e →
      (approveWithdrawal s id adminId o now).resp =
        .err 500 "Failed to process withdrawal" (some (errDetails e)) ∧
      storeGet (approveWithdrawal s id adminId o now).withdrawals id =
        some (failedUpdate now e w) ∧
      (failedUpdate now e w).status = "failed" ∧
      (failedUpdate now e w).error_message = some (errMsgField e) ∧
      GwCall.sendMoney (buildSendMoneyReq w) ∈
        (approveWithdrawal s id adminId o now).calls) ∧
    (o.updApproved = none → o.reread = some e →
      storeGet (approveWithdrawal s id adminId o now).withdrawals id =
        some (failedUpdate now e (approvedUpdate adminId now resp w)) ∧
      (failedUpdate now e (approvedUpdate adminId now resp w)).status = "failed" ∧
      (failedUpdate now e (approvedUpdate adminId now resp w)).ezipay_response =
        some resp ∧
      GwCall.sendMoney (buildSendMoneyReq w) ∈
        (approveWithdrawal s id adminId o now).calls) := by
  constructor
  · intro hupd
    have hred : approveWithdrawal s id adminId o now =
        approveCatch s id e o.updFailed now [.sendMoney (buildSendMoneyReq w)] := by
      simp [approveWithdrawal, hgd, hget, hp, htok, hsend, hupd]
    refine ⟨?_, ?_, rfl, rfl, ?_⟩
    · rw [hred]
      rfl
    · rw [hred]
      simp [approveCatch, hcomp]
      exact storeGet_storeUpdate s id _ w hget
    · rw [hred]
      simp [approveCatch]
  · intro hupd hrr
    have h1 := storeGet_storeUpdate s id (approvedUpdate adminId now resp) w hget
    have hred : approveWithdrawal s id adminId o now =
        approveCatch (storeUpdate s id (approvedUpdate adminId now resp)) id e
          o.updFailed now [.sendMoney (buildSendMoneyReq w)] := by
      simp [approveWithdrawal, hgd, hget, hp, htok, hsend, hupd, hrr]
    refine ⟨?_, rfl, rfl, ?_⟩
    · rw [hred]
      simp [approveCatch, hcomp]
      exact storeGet_storeUpdate _ id _ _ h1
    · rw [hred]
      simp [approveCatch]

/-- Approve oracles on which the payout succeeds but the approved update
throws. -/
def oUpdFailAfterSend : ApproveOracles :=
  { getDoc := none, token := .ok "tok", send := .ok "resp"
    updApproved := some eBoom, reread := none, updFailed := none }

/-- Approve oracles on which the payout and the approved update succeed but
the re-read throws. -/
def oRereadFail : ApproveOracles :=
  { getDoc := none, token := .ok "tok", send := .ok "resp"
    updApproved := none, reread := some eBoom, updFailed := none }

/-- Witness for C9: both post-payout failure points at a concrete record. -/
theorem approve_post_payout_failure_marks_failed_witness :
    storeGet (approveWithdrawal [("w1", wPending)] "w1" none
        oUpdFailAfterSend 5).withdrawals "w1" =
      some (failedUpdate 5 eBoom wPending) ∧
    storeGet (approveWithdrawal [("w1", wPending)] "w1" none
        oRereadFail 5).withdrawals "w1" =
      some (failedUpdate 5 eBoom (approvedUpdate none 5 "resp" wPending)) := by
  have h1 := (approve_post_payout_failure_marks_failed [("w1", wPending)] "w1"
    wPending none oUpdFailAfterSend 5 "tok" "resp" eBoom
    rfl (by decide) rfl rfl rfl rfl).1 rfl
  have h2 := (approve_post_payout_failure_marks_failed [("w1", wPending)] "w1"
    wPending none oRereadFail 5 "tok" "resp" eBoom
    rfl (by decide) rfl rfl rfl rfl).2 rfl rfl
  exact ⟨h1.2.1, h2.1⟩

/-- C10: every store reachable through the withdrawal routes holds only
records with status in {pending, approved, rejected, failed}, and therefore
the Stats total always equals the sum of the pending, approved, rejected and
failed counts. -/
theorem reachable_stats_partition (s : Store) (h : Reachable s) :
    storeStatusOk s ∧
    (statsOf s).total =
      (statsOf s).pending + (statsOf s).approved +
        (statsOf s).rejected + (statsOf s).failed := by
  have hs := reachable_storeStatusOk s h
  exact ⟨hs, stats_partition s hs⟩

/-- Witness for C10 at the store produced by one successful create. -/
theorem reachable_stats_partition_witness :
    storeStatusOk (createWithdrawal [] bGood oCreateOk 2).withdrawals ∧
    (statsOf (createWithdrawal [] bGood oCreateOk 2).withdrawals).total =
      (statsOf (createWithdrawal [] bGood oCreateOk 2).withdrawals).pending +
        (statsOf (createWithdrawal [] bGood oCreateOk 2).withdrawals).approved +
        (statsOf (createWithdrawal [] bGood oCreateOk 2).withdrawals).rejected +
        (statsOf (createWithdrawal [] bGood oCreateOk 2).withdrawals).failed :=
  reachable_stats_partition _ (Reachable.create [] bGood oCreateOk 2 Reachable.init)

end EziPay
